import Mathlib

/-!
Shallow embedding of `scripts/inference.py` from the LatentSync inference
repository.  The script is sequential glue code: module-level dependency
bootstrap, CLI argument parsing, a `main` function that loads models, runs
one pipeline invocation and then shells out to four post-processing
subprocesses.  We model each externally visible action as an `Event`, the
external world (filesystem, subprocess exit codes, CUDA/xformers
availability) as an `Env`, and the script's functions as pure functions
producing an event trace, a final filesystem and an outcome.
-/

namespace LatentSync

/-- Torch dtype selected for inference (float16 if the GPU supports it). -/
inductive DType
  | float16
  | float32
  deriving DecidableEq, Repr

/-- The configuration fields of `config` read by `main`
(`config.model.cross_attention_dim`, `config.data.num_frames`,
`config.data.resolution`). -/
structure Config where
  cross_attention_dim : Int
  num_frames : Nat
  resolution : Nat
  deriving DecidableEq, Repr

/-- The parsed CLI arguments (`args`). -/
structure Args where
  unet_config_path : String
  inference_ckpt_path : String
  video_path : String
  audio_path : String
  video_out_path : String
  inference_steps : Int
  guidance_scale : ℚ
  seed : Int
  deriving DecidableEq, Repr

/-- The command-line input: which flags were provided, with their values.
`none` means the flag was omitted. -/
structure CLIInput where
  unet_config_path : Option String := none
  inference_ckpt_path : Option String := none
  video_path : Option String := none
  audio_path : Option String := none
  video_out_path : Option String := none
  inference_steps : Option Int := none
  guidance_scale : Option ℚ := none
  seed : Option Int := none
  deriving DecidableEq, Repr

/-- Python exceptions the script can raise. -/
inductive PyError
  | notImplementedError (msg : String)
  | calledProcessError (cmd : List String) (returncode : Int)
  | fileExistsError (path : String)
  | argparseError (msg : String)
  deriving DecidableEq, Repr

/-- Externally visible actions of the script, in program order. -/
inductive Event
  | print (s : String)
  | loadScheduler (path : String)
  | loadAudioEncoder (model_path : String) (num_frames : Nat)
  | loadVAE (dtype : DType)
  | loadUNet (ckpt_path : String)
  | enableXformers
  | setSeed (n : Int)
  | randomSeed
  | runPipeline (video_path audio_path video_out_path video_mask_path : String)
      (num_frames : Nat) (num_inference_steps : Int) (guidance_scale : ℚ)
      (weight_dtype : DType) (width height : Nat)
  | mkdir (d : String)
  | subprocRun (cmd : List String) (returncode : Int)
  | subprocCheckCall (cmd : List String) (returncode : Int)
  deriving DecidableEq, Repr

/-- The external world: what is importable, what the filesystem contains,
and what each external command would do. -/
structure Env where
  gfpganPresent : Bool
  cudaFp16Supported : Bool
  xformersAvailable : Bool
  initialSeed : Int
  fs : List String
  exitCode : List String → Int
  stderrOf : List String → String

/-- Result of running `main`: the event trace, the resulting filesystem
and the outcome (normal return or uncaught exception). -/
structure RunResult where
  events : List Event
  fs : List String
  outcome : Except PyError Unit

/-! ## CLI parsing (`argparse` block under `if __name__ == "__main__"`) -/

/-- `parser.parse_args()`: the four paths are `required=True`; the
remaining flags have defaults `"configs/unet.yaml"`, `20`, `1.0`, `1247`. -/
def parseArgs (i : CLIInput) : Except String Args :=
  match i.inference_ckpt_path, i.video_path, i.audio_path, i.video_out_path with
  | some ckpt, some vp, some ap, some vop =>
      .ok { unet_config_path := i.unet_config_path.getD "configs/unet.yaml"
            inference_ckpt_path := ckpt
            video_path := vp
            audio_path := ap
            video_out_path := vop
            inference_steps := i.inference_steps.getD 20
            guidance_scale := i.guidance_scale.getD 1
            seed := i.seed.getD 1247 }
  | _, _, _, _ => .error "the following arguments are required"

/-! ## Module-level dependency bootstrap (runs on import) -/

/-- `install_package`: `[sys.executable, "-m", "pip", "install", package_name]`. -/
def pipInstallCmd (package_name : String) : List String :=
  ["python", "-m", "pip", "install", package_name]

/-- `["git", "clone", "https://github.com/sczhou/CodeFormer.git"]`. -/
def gitCloneCmd : List String :=
  ["git", "clone", "https://github.com/sczhou/CodeFormer.git"]

/-- `[sys.executable, "-m", "pip", "install", "-r", "CodeFormer/requirements.txt"]`. -/
def pipReqsCmd : List String :=
  ["python", "-m", "pip", "install", "-r", "CodeFormer/requirements.txt"]

/-- `subprocess.check_call`: runs the command and raises
`CalledProcessError` when the exit code is non-zero. -/
def checkCall (env : Env) (cmd : List String) : List Event × Except PyError Unit :=
  ([.subprocCheckCall cmd (env.exitCode cmd)],
   if env.exitCode cmd = 0 then .ok ()
   else .error (.calledProcessError cmd (env.exitCode cmd)))

/-- The `try: import gfpgan except ImportError: install_package("gfpgan")`
block. -/
def gfpganBootstrap (env : Env) : List Event × Except PyError Unit :=
  if env.gfpganPresent then ([], .ok ())
  else
    (Event.print "GFPGAN not found. Installing..." ::
       (checkCall env (pipInstallCmd "gfpgan")).1,
     (checkCall env (pipInstallCmd "gfpgan")).2)

/-- The `if not os.path.exists("CodeFormer")` block: clone the repository,
then install its requirements; each via `check_call`. -/
def codeFormerBootstrap (env : Env) : List Event × Except PyError Unit :=
  if "CodeFormer" ∈ env.fs then ([], .ok ())
  else
    match (checkCall env gitCloneCmd).2 with
    | .error e =>
        (Event.print "CodeFormer repository not found. Cloning..." ::
           (checkCall env gitCloneCmd).1,
         .error e)
    | .ok () =>
        (Event.print "CodeFormer repository not found. Cloning..." ::
           (checkCall env gitCloneCmd).1 ++
           Event.print "Installing CodeFormer dependencies..." ::
           (checkCall env pipReqsCmd).1,
         (checkCall env pipReqsCmd).2)

/-- Everything the module executes on import: the GFPGAN check/install,
then the CodeFormer check/clone/install.  An exception from `check_call`
propagates and stops the module. -/
def moduleInit (env : Env) : List Event × Except PyError Unit :=
  match (gfpganBootstrap env).2 with
  | .error e => ((gfpganBootstrap env).1, .error e)
  | .ok () =>
      ((gfpganBootstrap env).1 ++ (codeFormerBootstrap env).1,
       (codeFormerBootstrap env).2)

/-! ## `main` -/

/-- `os.path.join` on the two-argument calls used by the script. -/
def osPathJoin (a b : String) : String := a ++ "/" ++ b

/-- The `if/elif/else` on `config.model.cross_attention_dim`:
`some path` for the supported values, `none` for the
`NotImplementedError` branch. -/
def whisperSelect (dim : Int) : Option String :=
  if dim = 768 then some "checkpoints/whisper/small.pt"
  else if dim = 384 then some "checkpoints/whisper/tiny.pt"
  else none

/-- dtype: float16 iff CUDA is available with device capability above 7. -/
def dtypeOf (env : Env) : DType :=
  if env.cudaFp16Supported then .float16 else .float32

/-- The three prints and the `DDIMScheduler.from_pretrained("configs")`
call that precede the `cross_attention_dim` check. -/
def introEvents (args : Args) : List Event :=
  [.print ("Input video path: " ++ args.video_path),
   .print ("Input audio path: " ++ args.audio_path),
   .print ("Loaded checkpoint path: " ++ args.inference_ckpt_path),
   .loadScheduler "configs"]

/-- Model construction after the check: the whisper-based audio encoder,
the VAE, the 3D U-Net, then the optional xformers enabling. -/
def loadEvents (config : Config) (args : Args) (env : Env) (wpath : String) :
    List Event :=
  [.loadAudioEncoder wpath config.num_frames,
   .loadVAE (dtypeOf env),
   .loadUNet args.inference_ckpt_path] ++
  (if env.xformersAvailable then [.enableXformers] else [])

/-- `if args.seed != -1: set_seed(args.seed) else: torch.seed()`, followed
by the initial-seed print. -/
def seedEvents (args : Args) (env : Env) : List Event :=
  (if args.seed ≠ -1 then [.setSeed args.seed] else [.randomSeed]) ++
  [.print ("Initial seed: " ++ toString env.initialSeed)]

/-- The single `pipeline(...)` invocation with its keyword arguments;
`video_mask_path` is `args.video_out_path.replace(".mp4", "_mask.mp4")`. -/
def pipelineEvent (config : Config) (args : Args) (env : Env) : Event :=
  .runPipeline args.video_path args.audio_path args.video_out_path
    (args.video_out_path.replace ".mp4" "_mask.mp4")
    config.num_frames args.inference_steps args.guidance_scale
    (dtypeOf env) config.resolution config.resolution

/-- `if not os.path.exists(d): os.makedirs(d)`: creates the directory only
when it is absent. -/
def mkdirIfAbsent (fs : List String) (d : String) : List Event × List String :=
  if d ∈ fs then ([], fs) else ([.mkdir d], d :: fs)

/-- Unguarded `os.makedirs`, which raises `FileExistsError` when the
directory already exists; the script always guards it with
`os.path.exists`. -/
def osMakedirs (fs : List String) (d : String) : Except PyError (List String) :=
  if d ∈ fs then .error (.fileExistsError d) else .ok (d :: fs)

/-- `ffmpeg -i <video_out_path> temp_frames/frame_%04d.png`. -/
def ffmpegExtractCmd (video_out_path : String) : List String :=
  ["ffmpeg", "-i", video_out_path, osPathJoin "temp_frames" "frame_%04d.png"]

/-- The GFPGAN enhancement command. -/
def gfpganCmd : List String :=
  ["python", "-m", "gfpgan",
   "--input-path", "temp_frames",
   "--output-path", "enhanced_frames",
   "--version", "1.3"]

/-- The CodeFormer refinement command. -/
def codeformerCmd : List String :=
  ["python", "CodeFormer/inference_codeformer.py",
   "--input_path", "enhanced_frames",
   "--output_path", "final_frames",
   "--face_upsample"]

/-- The final re-encoding command. -/
def ffmpegAssembleCmd : List String :=
  ["ffmpeg", "-r", "25",
   "-i", osPathJoin "final_frames" "frame_%04d.png",
   "-vcodec", "libx264",
   "-crf", "18",
   "-pix_fmt", "yuv420p",
   "final_video.mp4"]

/-- One post-processing stage: the start print, the blocking
`subprocess.run` with captured output, then the return-code check that
prints either the success message or the error message and the captured
stderr.  Nothing is raised either way. -/
def stageEvents (env : Env) (cmd : List String) (startMsg okMsg errMsg : String) :
    List Event :=
  [.print startMsg, .subprocRun cmd (env.exitCode cmd)] ++
  (if env.exitCode cmd = 0 then [.print okMsg]
   else [.print errMsg, .print (env.stderrOf cmd)])

/-- The four sequential post-processing stages with their directory
bookkeeping, in source order: create `temp_frames` and extract frames,
create `enhanced_frames` and run GFPGAN, create `final_frames` and run
CodeFormer, then reassemble `final_video.mp4`. -/
def postProcess (args : Args) (env : Env) : List Event × List String :=
  let p1 := mkdirIfAbsent env.fs "temp_frames"
  let s1 := stageEvents env (ffmpegExtractCmd args.video_out_path)
      "Extracting frames from the generated video..."
      "Frames successfully extracted to the temp_frames folder."
      "Error during frame extraction:"
  let p2 := mkdirIfAbsent p1.2 "enhanced_frames"
  let s2 := stageEvents env gfpganCmd
      "Enhancing frames with GFPGAN..."
      "Frames successfully enhanced by GFPGAN and stored in enhanced_frames."
      "Error during GFPGAN enhancement:"
  let p3 := mkdirIfAbsent p2.2 "final_frames"
  let s3 := stageEvents env codeformerCmd
      "Refining frames with CodeFormer..."
      "Frames successfully refined by CodeFormer and stored in final_frames."
      "Error during CodeFormer enhancement:"
  let s4 := stageEvents env ffmpegAssembleCmd
      "Reassembling final frames into a video..."
      "Final video successfully created: final_video.mp4"
      "Error during video assembly:"
  (p1.1 ++ s1 ++ p2.1 ++ s2 ++ p3.1 ++ s3 ++ s4, p3.2)

/-- `main(config, args)`: intro prints and scheduler load, the
`cross_attention_dim` dispatch (raising `NotImplementedError` for
unsupported values), model construction, seeding, the pipeline
invocation, then the post-processing chain. -/
def main (config : Config) (args : Args) (env : Env) : RunResult :=
  match whisperSelect config.cross_attention_dim with
  | some wpath =>
      let post := postProcess args env
      { events := introEvents args ++ loadEvents config args env wpath ++
          seedEvents args env ++ pipelineEvent config args env :: post.1
        fs := post.2
        outcome := .ok () }
  | none =>
      { events := introEvents args
        fs := env.fs
        outcome := .error (.notImplementedError "cross_attention_dim must be 768 or 384") }

/-- The whole script: module-level bootstrap on import, then under
`__main__` the argument parsing and the `main` call.  A bootstrap
exception stops the script before `main` runs. -/
def script (config : Config) (i : CLIInput) (env : Env) :
    List Event × Except PyError Unit :=
  match (moduleInit env).2 with
  | .error e => ((moduleInit env).1, .error e)
  | .ok () =>
      match parseArgs i with
      | .error msg => ((moduleInit env).1, .error (.argparseError msg))
      | .ok args =>
          ((moduleInit env).1 ++ (main config args env).events,
           (main config args env).outcome)

/-! ## Trace classifiers -/

/-- Model-loading events: the whisper audio encoder, the VAE and the
U-Net (the scheduler load reads a config, not model weights). -/
def isModelLoad : Event → Bool
  | .loadAudioEncoder _ _ => true
  | .loadVAE _ => true
  | .loadUNet _ => true
  | _ => false

/-- Pipeline-invocation events. -/
def isRunPipeline : Event → Bool
  | .runPipeline _ _ _ _ _ _ _ _ _ _ => true
  | _ => false

/-- The commands of the `subprocess.run` events of a trace, in order. -/
def subprocRunCmds (events : List Event) : List (List String) :=
  events.filterMap fun e =>
    match e with
    | .subprocRun cmd _ => some cmd
    | _ => none

/-- The pipeline invocations of a trace, in order. -/
def pipelineCalls (events : List Event) : List Event :=
  events.filter fun e => isRunPipeline e

/-- The directories created by a trace, in order. -/
def mkdirsOf (events : List Event) : List String :=
  events.filterMap fun e =>
    match e with
    | .mkdir d => some d
    | _ => none

/-- Events that can only come from `main` (not from the module-level
bootstrap, which only prints and calls `check_call`). -/
def isFromMain : Event → Bool
  | .print _ => false
  | .subprocCheckCall _ _ => false
  | _ => true

/-- The seeding actions (`set_seed` / `torch.seed()`) of a trace. -/
def seedActions (events : List Event) : List Event :=
  events.filter fun e =>
    match e with
    | .setSeed _ => true
    | .randomSeed => true
    | _ => false

/-! ## Helper lemmas about the trace classifiers -/

theorem whisperSelect_of_dim {dim : Int} (hdim : dim = 768 ∨ dim = 384) :
    whisperSelect dim =
      some (if dim = 768 then "checkpoints/whisper/small.pt"
            else "checkpoints/whisper/tiny.pt") := by
  rcases hdim with h | h <;> subst h <;> norm_num [whisperSelect]

theorem main_eq_of_some {config : Config} {args : Args} {env : Env} {wpath : String}
    (hsel : whisperSelect config.cross_attention_dim = some wpath) :
    main config args env =
      { events := introEvents args ++ loadEvents config args env wpath ++
          seedEvents args env ++ pipelineEvent config args env :: (postProcess args env).1
        fs := (postProcess args env).2
        outcome := .ok () } := by
  simp [main, hsel]

theorem subprocRunCmds_append (l₁ l₂ : List Event) :
    subprocRunCmds (l₁ ++ l₂) = subprocRunCmds l₁ ++ subprocRunCmds l₂ := by
  simp [subprocRunCmds]

theorem subprocRunCmds_introEvents (args : Args) :
    subprocRunCmds (introEvents args) = [] := rfl

theorem subprocRunCmds_loadEvents (config : Config) (args : Args) (env : Env)
    (wpath : String) : subprocRunCmds (loadEvents config args env wpath) = [] := by
  cases h : env.xformersAvailable <;> simp [loadEvents, subprocRunCmds, h]

theorem subprocRunCmds_seedEvents (args : Args) (env : Env) :
    subprocRunCmds (seedEvents args env) = [] := by
  by_cases h : args.seed = -1 <;> simp [seedEvents, subprocRunCmds, h]

theorem subprocRunCmds_stageEvents (env : Env) (cmd : List String)
    (startMsg okMsg errMsg : String) :
    subprocRunCmds (stageEvents env cmd startMsg okMsg errMsg) = [cmd] := by
  by_cases h : env.exitCode cmd = 0 <;> simp [stageEvents, subprocRunCmds, h]

theorem subprocRunCmds_mkdirIfAbsent (fs : List String) (d : String) :
    subprocRunCmds (mkdirIfAbsent fs d).1 = [] := by
  by_cases h : d ∈ fs <;> simp [mkdirIfAbsent, subprocRunCmds, h]

theorem subprocRunCmds_postProcess (args : Args) (env : Env) :
    subprocRunCmds (postProcess args env).1 =
      [ffmpegExtractCmd args.video_out_path, gfpganCmd, codeformerCmd,
       ffmpegAssembleCmd] := by
  simp [postProcess, subprocRunCmds_append, subprocRunCmds_stageEvents,
    subprocRunCmds_mkdirIfAbsent]

theorem pipelineCalls_append (l₁ l₂ : List Event) :
    pipelineCalls (l₁ ++ l₂) = pipelineCalls l₁ ++ pipelineCalls l₂ := by
  simp [pipelineCalls]

theorem pipelineCalls_introEvents (args : Args) :
    pipelineCalls (introEvents args) = [] := rfl

theorem pipelineCalls_loadEvents (config : Config) (args : Args) (env : Env)
    (wpath : String) : pipelineCalls (loadEvents config args env wpath) = [] := by
  cases h : env.xformersAvailable <;> simp [loadEvents, pipelineCalls, isRunPipeline, h]

theorem pipelineCalls_seedEvents (args : Args) (env : Env) :
    pipelineCalls (seedEvents args env) = [] := by
  by_cases h : args.seed = -1 <;> simp [seedEvents, pipelineCalls, isRunPipeline, h]

theorem pipelineCalls_stageEvents (env : Env) (cmd : List String)
    (startMsg okMsg errMsg : String) :
    pipelineCalls (stageEvents env cmd startMsg okMsg errMsg) = [] := by
  by_cases h : env.exitCode cmd = 0 <;> simp [stageEvents, pipelineCalls, isRunPipeline, h]

theorem pipelineCalls_mkdirIfAbsent (fs : List String) (d : String) :
    pipelineCalls (mkdirIfAbsent fs d).1 = [] := by
  by_cases h : d ∈ fs <;> simp [mkdirIfAbsent, pipelineCalls, isRunPipeline, h]

theorem pipelineCalls_postProcess (args : Args) (env : Env) :
    pipelineCalls (postProcess args env).1 = [] := by
  simp [postProcess, pipelineCalls_append, pipelineCalls_stageEvents,
    pipelineCalls_mkdirIfAbsent]

theorem mkdirsOf_append (l₁ l₂ : List Event) :
    mkdirsOf (l₁ ++ l₂) = mkdirsOf l₁ ++ mkdirsOf l₂ := by
  simp [mkdirsOf]

theorem mkdirsOf_introEvents (args : Args) : mkdirsOf (introEvents args) = [] := rfl

theorem mkdirsOf_loadEvents (config : Config) (args : Args) (env : Env)
    (wpath : String) : mkdirsOf (loadEvents config args env wpath) = [] := by
  cases h : env.xformersAvailable <;> simp [loadEvents, mkdirsOf, h]

theorem mkdirsOf_seedEvents (args : Args) (env : Env) :
    mkdirsOf (seedEvents args env) = [] := by
  by_cases h : args.seed = -1 <;> simp [seedEvents, mkdirsOf, h]

theorem mkdirsOf_stageEvents (env : Env) (cmd : List String)
    (startMsg okMsg errMsg : String) :
    mkdirsOf (stageEvents env cmd startMsg okMsg errMsg) = [] := by
  by_cases h : env.exitCode cmd = 0 <;> simp [stageEvents, mkdirsOf, h]

theorem mkdirsOf_mkdirIfAbsent (fs : List String) (d : String) :
    mkdirsOf (mkdirIfAbsent fs d).1 = if d ∈ fs then [] else [d] := by
  by_cases h : d ∈ fs <;> simp [mkdirIfAbsent, mkdirsOf, h]

theorem seedActions_append (l₁ l₂ : List Event) :
    seedActions (l₁ ++ l₂) = seedActions l₁ ++ seedActions l₂ := by
  simp [seedActions]

theorem seedActions_introEvents (args : Args) : seedActions (introEvents args) = [] := rfl

theorem seedActions_loadEvents (config : Config) (args : Args) (env : Env)
    (wpath : String) : seedActions (loadEvents config args env wpath) = [] := by
  cases h : env.xformersAvailable <;> simp [loadEvents, seedActions, h]

theorem seedActions_stageEvents (env : Env) (cmd : List String)
    (startMsg okMsg errMsg : String) :
    seedActions (stageEvents env cmd startMsg okMsg errMsg) = [] := by
  by_cases h : env.exitCode cmd = 0 <;> simp [stageEvents, seedActions, h]

theorem seedActions_mkdirIfAbsent (fs : List String) (d : String) :
    seedActions (mkdirIfAbsent fs d).1 = [] := by
  by_cases h : d ∈ fs <;> simp [mkdirIfAbsent, seedActions, h]

theorem seedActions_postProcess (args : Args) (env : Env) :
    seedActions (postProcess args env).1 = [] := by
  simp [postProcess, seedActions_append, seedActions_stageEvents,
    seedActions_mkdirIfAbsent]

theorem seedActions_seedEvents (args : Args) (env : Env) :
    seedActions (seedEvents args env) =
      (if args.seed ≠ -1 then [Event.setSeed args.seed] else [Event.randomSeed]) := by
  by_cases h : args.seed = -1 <;> simp [seedEvents, seedActions, h]

theorem subprocRunCmds_cons_pipelineEvent (config : Config) (args : Args)
    (env : Env) (l : List Event) :
    subprocRunCmds (pipelineEvent config args env :: l) = subprocRunCmds l := by
  simp [subprocRunCmds, pipelineEvent]

theorem pipelineCalls_cons_pipelineEvent (config : Config) (args : Args)
    (env : Env) (l : List Event) :
    pipelineCalls (pipelineEvent config args env :: l) =
      pipelineEvent config args env :: pipelineCalls l := by
  simp [pipelineCalls, pipelineEvent, isRunPipeline]

theorem mkdirsOf_cons_pipelineEvent (config : Config) (args : Args)
    (env : Env) (l : List Event) :
    mkdirsOf (pipelineEvent config args env :: l) = mkdirsOf l := by
  simp [mkdirsOf, pipelineEvent]

theorem seedActions_cons_pipelineEvent (config : Config) (args : Args)
    (env : Env) (l : List Event) :
    seedActions (pipelineEvent config args env :: l) = seedActions l := by
  simp [seedActions, pipelineEvent]

theorem mem_mkdirIfAbsent_self (fs : List String) (d : String) :
    d ∈ (mkdirIfAbsent fs d).2 := by
  by_cases h : d ∈ fs <;> simp [mkdirIfAbsent, h]

theorem mem_mkdirIfAbsent_of_mem {fs : List String} {a : String} (d : String)
    (h : a ∈ fs) : a ∈ (mkdirIfAbsent fs d).2 := by
  by_cases h2 : d ∈ fs <;> simp [mkdirIfAbsent, h2, h]

theorem mkdirIfAbsent_of_mem {fs : List String} {d : String} (h : d ∈ fs) :
    mkdirIfAbsent fs d = ([], fs) := by
  simp [mkdirIfAbsent, h]

/-- The guard `if not os.path.exists(d)` is exactly the condition under
which the unguarded `os.makedirs` succeeds. -/
theorem osMakedirs_ok_of_not_mem {fs : List String} {d : String} (h : d ∉ fs) :
    osMakedirs fs d = .ok (mkdirIfAbsent fs d).2 := by
  simp [osMakedirs, mkdirIfAbsent, h]

theorem stderr_print_mem_stageEvents {env : Env} {cmd : List String}
    (startMsg okMsg errMsg : String) (h : env.exitCode cmd ≠ 0) :
    Event.print (env.stderrOf cmd) ∈ stageEvents env cmd startMsg okMsg errMsg := by
  simp [stageEvents, h]

/-! ## Concrete example inputs for witnesses -/

/-- A typical parsed argument record (all defaults). -/
def argsEx : Args :=
  { unet_config_path := "configs/unet.yaml"
    inference_ckpt_path := "checkpoints/latentsync_unet.pt"
    video_path := "demo.mp4"
    audio_path := "demo.wav"
    video_out_path := "video_out.mp4"
    inference_steps := 20
    guidance_scale := 1
    seed := 1247 }

/-- A benign environment: everything installed, all commands succeed. -/
def envEx : Env :=
  { gfpganPresent := true
    cudaFp16Supported := false
    xformersAvailable := false
    initialSeed := 1247
    fs := []
    exitCode := fun _ => 0
    stderrOf := fun _ => "" }

def cfg768 : Config := ⟨768, 16, 256⟩

def cfg384 : Config := ⟨384, 16, 256⟩

def cfgBad : Config := ⟨512, 16, 256⟩

/-- Environment in which every external command exits with code 1. -/
def envFail : Env := { envEx with exitCode := fun _ => 1, stderrOf := fun _ => "boom" }

/-- Environment in which the three output directories already exist. -/
def envDirs : Env :=
  { envEx with fs := ["temp_frames", "enhanced_frames", "final_frames"] }

/-- CLI input giving only the four required flags. -/
def cliEx : CLIInput :=
  { inference_ckpt_path := some "checkpoints/latentsync_unet.pt"
    video_path := some "demo.mp4"
    audio_path := some "demo.wav"
    video_out_path := some "video_out.mp4" }

/-- Environment with gfpgan importable and the CodeFormer directory present. -/
def envBootA : Env := { envEx with fs := ["CodeFormer"] }

/-- Environment with gfpgan missing and no CodeFormer directory; all
commands succeed. -/
def envBootB : Env := { envEx with gfpganPresent := false }

/-- Environment with gfpgan missing and its pip install failing. -/
def envBootFail : Env :=
  { envEx with gfpganPresent := false, exitCode := fun _ => 1 }

/-! ## Claims -/

/-- C1: for every configuration whose `model.cross_attention_dim` is
neither 768 nor 384, `main` raises `NotImplementedError`, and the trace up
to that point contains no model-loading event (whisper audio encoder, VAE
or U-Net). -/
theorem cross_attention_dim_invalid_raises_before_model_load
    (config : Config) (args : Args) (env : Env)
    (h768 : config.cross_attention_dim ≠ 768)
    (h384 : config.cross_attention_dim ≠ 384) :
    (main config args env).outcome =
      .error (.notImplementedError "cross_attention_dim must be 768 or 384") ∧
    ∀ e ∈ (main config args env).events, isModelLoad e = false := by
  have hsel : whisperSelect config.cross_attention_dim = none := by
    simp [whisperSelect, h768, h384]
  constructor
  · simp [main, hsel]
  · simp [main, hsel, introEvents, isModelLoad]

/-- Witness for C1 at `cross_attention_dim = 512`. -/
theorem cross_attention_dim_invalid_raises_before_model_load_witness :
    (main cfgBad argsEx envEx).outcome =
      .error (.notImplementedError "cross_attention_dim must be 768 or 384") ∧
    isModelLoad (Event.loadScheduler "configs") = false := by
  have h := cross_attention_dim_invalid_raises_before_model_load cfgBad argsEx envEx
    (by decide) (by decide)
  exact ⟨h.1, h.2 (Event.loadScheduler "configs") (by decide)⟩

/-- C3: for every accepted configuration, the whisper checkpoint path
passed to the audio encoder matches the configured dimension:
768 selects `checkpoints/whisper/small.pt` and 384 selects
`checkpoints/whisper/tiny.pt`. -/
theorem whisper_checkpoint_matches_dim (config : Config) (args : Args) (env : Env)
    (hdim : config.cross_attention_dim = 768 ∨ config.cross_attention_dim = 384) :
    Event.loadAudioEncoder
      (if config.cross_attention_dim = 768 then "checkpoints/whisper/small.pt"
       else "checkpoints/whisper/tiny.pt")
      config.num_frames ∈ (main config args env).events := by
  have hsel := whisperSelect_of_dim hdim
  rw [main_eq_of_some hsel]
  simp [introEvents, loadEvents]

/-- Witness for C3 at `cross_attention_dim = 768`. -/
theorem whisper_checkpoint_matches_dim_witness :
    Event.loadAudioEncoder "checkpoints/whisper/small.pt" cfg768.num_frames ∈
      (main cfg768 argsEx envEx).events := by
  have h := whisper_checkpoint_matches_dim cfg768 argsEx envEx (Or.inl rfl)
  simpa [cfg768] using h

/-- C4: in every run of `main`, the external-process invocations are
exactly frame extraction, GFPGAN enhancement, CodeFormer refinement and
re-encoding, in that order; each is a blocking `subprocess.run` whose
return code is recorded before the next one starts. -/
theorem postprocessing_fixed_order (config : Config) (args : Args) (env : Env)
    (hdim : config.cross_attention_dim = 768 ∨ config.cross_attention_dim = 384) :
    subprocRunCmds (main config args env).events =
      [ffmpegExtractCmd args.video_out_path, gfpganCmd, codeformerCmd,
       ffmpegAssembleCmd] := by
  have hsel := whisperSelect_of_dim hdim
  rw [main_eq_of_some hsel]
  simp only [subprocRunCmds_append, subprocRunCmds_introEvents,
    subprocRunCmds_loadEvents, subprocRunCmds_seedEvents,
    subprocRunCmds_cons_pipelineEvent, subprocRunCmds_postProcess]
  simp

/-- Witness for C4 at `cross_attention_dim = 384`. -/
theorem postprocessing_fixed_order_witness :
    subprocRunCmds (main cfg384 argsEx envEx).events =
      [ffmpegExtractCmd argsEx.video_out_path, gfpganCmd, codeformerCmd,
       ffmpegAssembleCmd] :=
  postprocessing_fixed_order cfg384 argsEx envEx (Or.inr rfl)

/-- C10: the pipeline is invoked exactly once, and the `video_mask_path`
it receives is `args.video_out_path` with `".mp4"` replaced by
`"_mask.mp4"`. -/
theorem video_mask_path_derived (config : Config) (args : Args) (env : Env)
    (hdim : config.cross_attention_dim = 768 ∨ config.cross_attention_dim = 384) :
    pipelineCalls (main config args env).events =
      [Event.runPipeline args.video_path args.audio_path args.video_out_path
        (args.video_out_path.replace ".mp4" "_mask.mp4")
        config.num_frames args.inference_steps args.guidance_scale
        (dtypeOf env) config.resolution config.resolution] := by
  have hsel := whisperSelect_of_dim hdim
  rw [main_eq_of_some hsel]
  simp only [pipelineCalls_append, pipelineCalls_introEvents,
    pipelineCalls_loadEvents, pipelineCalls_seedEvents,
    pipelineCalls_cons_pipelineEvent, pipelineCalls_postProcess]
  simp [pipelineEvent]

/-- Witness for C10 at the default arguments. -/
theorem video_mask_path_derived_witness :
    pipelineCalls (main cfg768 argsEx envEx).events =
      [Event.runPipeline argsEx.video_path argsEx.audio_path argsEx.video_out_path
        (argsEx.video_out_path.replace ".mp4" "_mask.mp4")
        cfg768.num_frames argsEx.inference_steps argsEx.guidance_scale
        (dtypeOf envEx) cfg768.resolution cfg768.resolution] :=
  video_mask_path_derived cfg768 argsEx envEx (Or.inl rfl)

/-- C2: every post-processing stage runs regardless of the exit codes of
the others, `main` returns normally whatever the exit codes are, and a
stage with a non-zero exit code has its captured stderr printed. -/
theorem stage_failures_nonfatal (config : Config) (args : Args) (env : Env)
    (hdim : config.cross_attention_dim = 768 ∨ config.cross_attention_dim = 384) :
    (main config args env).outcome = .ok () ∧
    subprocRunCmds (main config args env).events =
      [ffmpegExtractCmd args.video_out_path, gfpganCmd, codeformerCmd,
       ffmpegAssembleCmd] ∧
    ∀ cmd ∈ [ffmpegExtractCmd args.video_out_path, gfpganCmd, codeformerCmd,
             ffmpegAssembleCmd],
      env.exitCode cmd ≠ 0 →
        Event.print (env.stderrOf cmd) ∈ (main config args env).events := by
  have hsel := whisperSelect_of_dim hdim
  refine ⟨?_, ?_, ?_⟩
  · rw [main_eq_of_some hsel]
  · rw [main_eq_of_some hsel]
    simp only [subprocRunCmds_append, subprocRunCmds_introEvents,
      subprocRunCmds_loadEvents, subprocRunCmds_seedEvents,
      subprocRunCmds_cons_pipelineEvent, subprocRunCmds_postProcess]
    simp
  · intro cmd hc hnz
    rw [main_eq_of_some hsel]
    have hpost : Event.print (env.stderrOf cmd) ∈ (postProcess args env).1 := by
      simp only [List.mem_cons, List.not_mem_nil, or_false] at hc
      rcases hc with rfl | rfl | rfl | rfl <;>
        · simp only [postProcess, List.mem_append]
          simp [stderr_print_mem_stageEvents _ _ _ hnz]
    simp [hpost]

/-- Witness for C2: GFPGAN stage failing with exit code 1. -/
theorem stage_failures_nonfatal_witness :
    (main cfg768 argsEx envFail).outcome = .ok () ∧
    Event.print (envFail.stderrOf gfpganCmd) ∈ (main cfg768 argsEx envFail).events := by
  have h := stage_failures_nonfatal cfg768 argsEx envFail (Or.inl rfl)
  exact ⟨h.1, h.2.2 gfpganCmd (by simp) (by decide)⟩

/-- C5: every completed run of `main` ends with the three output
directories present; when they already exist, nothing is created (no
`mkdir` event), the filesystem is unchanged, and `main` still returns
normally. -/
theorem frame_dirs_created_idempotently (config : Config) (args : Args) (env : Env)
    (hdim : config.cross_attention_dim = 768 ∨ config.cross_attention_dim = 384) :
    (main config args env).outcome = .ok () ∧
    ("temp_frames" ∈ (main config args env).fs ∧
     "enhanced_frames" ∈ (main config args env).fs ∧
     "final_frames" ∈ (main config args env).fs) ∧
    ("temp_frames" ∈ env.fs → "enhanced_frames" ∈ env.fs →
     "final_frames" ∈ env.fs →
      (main config args env).fs = env.fs ∧
      ∀ d, Event.mkdir d ∉ (main config args env).events) := by
  have hsel := whisperSelect_of_dim hdim
  have hfs : (main config args env).fs =
      (mkdirIfAbsent
        (mkdirIfAbsent (mkdirIfAbsent env.fs "temp_frames").2 "enhanced_frames").2
        "final_frames").2 := by
    rw [main_eq_of_some hsel]
    simp [postProcess]
  refine ⟨?_, ⟨?_, ?_, ?_⟩, ?_⟩
  · rw [main_eq_of_some hsel]
  · rw [hfs]
    exact mem_mkdirIfAbsent_of_mem _
      (mem_mkdirIfAbsent_of_mem _ (mem_mkdirIfAbsent_self _ _))
  · rw [hfs]
    exact mem_mkdirIfAbsent_of_mem _ (mem_mkdirIfAbsent_self _ _)
  · rw [hfs]
    exact mem_mkdirIfAbsent_self _ _
  · intro h1 h2 h3
    constructor
    · rw [hfs, mkdirIfAbsent_of_mem h1, mkdirIfAbsent_of_mem h2,
        mkdirIfAbsent_of_mem h3]
    · intro d hd
      have hmk : d ∈ mkdirsOf (main config args env).events :=
        List.mem_filterMap.2 ⟨Event.mkdir d, hd, rfl⟩
      rw [main_eq_of_some hsel] at hmk
      simp only [mkdirsOf_append, mkdirsOf_introEvents, mkdirsOf_loadEvents,
        mkdirsOf_seedEvents, mkdirsOf_cons_pipelineEvent] at hmk
      have hpost : mkdirsOf (postProcess args env).1 = [] := by
        simp only [postProcess, mkdirsOf_append, mkdirsOf_stageEvents,
          mkdirsOf_mkdirIfAbsent]
        rw [mkdirIfAbsent_of_mem h1, mkdirIfAbsent_of_mem h2]
        simp [h1, h2, h3]
      rw [hpost] at hmk
      simp at hmk

/-- Witness for C5: re-running with all three directories present leaves
the filesystem unchanged and creates nothing. -/
theorem frame_dirs_created_idempotently_witness :
    (main cfg768 argsEx envDirs).fs = envDirs.fs ∧
    Event.mkdir "temp_frames" ∉ (main cfg768 argsEx envDirs).events := by
  have h := frame_dirs_created_idempotently cfg768 argsEx envDirs (Or.inl rfl)
  have h2 := h.2.2 (by simp [envDirs, envEx]) (by simp [envDirs, envEx])
    (by simp [envDirs, envEx])
  exact ⟨h2.1, h2.2 "temp_frames"⟩

/-- C7: when `args.seed` is not `-1`, the only seeding action is
`set_seed(args.seed)` and it happens before the pipeline invocation; when
`args.seed` is `-1`, the only seeding action is a random reseed
(`torch.seed()`), again before the pipeline invocation. -/
theorem seed_fixed_before_pipeline (config : Config) (args : Args) (env : Env)
    (hdim : config.cross_attention_dim = 768 ∨ config.cross_attention_dim = 384) :
    (args.seed ≠ -1 →
      seedActions (main config args env).events = [Event.setSeed args.seed] ∧
      ∃ l₁ l₂, (main config args env).events = l₁ ++ Event.setSeed args.seed :: l₂ ∧
        pipelineEvent config args env ∈ l₂) ∧
    (args.seed = -1 →
      seedActions (main config args env).events = [Event.randomSeed] ∧
      ∃ l₁ l₂, (main config args env).events = l₁ ++ Event.randomSeed :: l₂ ∧
        pipelineEvent config args env ∈ l₂) := by
  have hsel := whisperSelect_of_dim hdim
  have hacts : seedActions (main config args env).events =
      (if args.seed ≠ -1 then [Event.setSeed args.seed] else [Event.randomSeed]) := by
    rw [main_eq_of_some hsel]
    simp only [seedActions_append, seedActions_introEvents, seedActions_loadEvents,
      seedActions_cons_pipelineEvent, seedActions_postProcess,
      seedActions_seedEvents]
    simp
  constructor
  · intro hs
    refine ⟨by simp [hacts, hs], ?_⟩
    refine ⟨introEvents args ++ loadEvents config args env
        (if config.cross_attention_dim = 768 then "checkpoints/whisper/small.pt"
         else "checkpoints/whisper/tiny.pt"),
      Event.print ("Initial seed: " ++ toString env.initialSeed) ::
        pipelineEvent config args env :: (postProcess args env).1, ?_, by simp⟩
    rw [main_eq_of_some hsel]
    simp [seedEvents, hs]
  · intro hs
    refine ⟨by simp [hacts, hs], ?_⟩
    refine ⟨introEvents args ++ loadEvents config args env
        (if config.cross_attention_dim = 768 then "checkpoints/whisper/small.pt"
         else "checkpoints/whisper/tiny.pt"),
      Event.print ("Initial seed: " ++ toString env.initialSeed) ::
        pipelineEvent config args env :: (postProcess args env).1, ?_, by simp⟩
    rw [main_eq_of_some hsel]
    simp [seedEvents, hs]

/-- Witness for C7 at the default seed 1247. -/
theorem seed_fixed_before_pipeline_witness :
    seedActions (main cfg768 argsEx envEx).events = [Event.setSeed argsEx.seed] := by
  have h := seed_fixed_before_pipeline cfg768 argsEx envEx (Or.inl rfl)
  exact (h.1 (by decide)).1

/-- C6: parsing succeeds exactly when the four required flags
(`--inference_ckpt_path`, `--video_path`, `--audio_path`,
`--video_out_path`) are all provided, and the omitted optional flags get
the defaults 20 (`--inference_steps`), 1.0 (`--guidance_scale`) and 1247
(`--seed`). -/
theorem cli_required_flags_and_defaults (i : CLIInput) :
    ((∃ a, parseArgs i = .ok a) ↔
      (i.inference_ckpt_path.isSome ∧ i.video_path.isSome ∧
       i.audio_path.isSome ∧ i.video_out_path.isSome)) ∧
    ∀ a, parseArgs i = .ok a →
      (i.inference_steps = none → a.inference_steps = 20) ∧
      (i.guidance_scale = none → a.guidance_scale = 1) ∧
      (i.seed = none → a.seed = 1247) := by
  obtain ⟨u, ck, vp, ap, vo, st, gs, sd⟩ := i
  cases ck <;> cases vp <;> cases ap <;> cases vo <;> simp [parseArgs]
  exact ⟨fun h => by simp [h], fun h => by simp [h], fun h => by simp [h]⟩

/-- Witness for C6: only the four required flags provided yields the
default values. -/
theorem cli_required_flags_and_defaults_witness :
    argsEx.inference_steps = 20 ∧ argsEx.guidance_scale = 1 ∧
    argsEx.seed = 1247 := by
  have h := (cli_required_flags_and_defaults cliEx).2 argsEx rfl
  exact ⟨h.1 rfl, h.2.1 rfl, h.2.2 rfl⟩

/-- C8: on import, a missing gfpgan package is installed via pip, a
missing CodeFormer directory is cloned via git and its requirements
installed via pip (once the clone succeeded), and when both are present no
install or clone shell-out is made at all. -/
theorem bootstrap_installs_on_demand (env : Env) :
    (env.gfpganPresent = true → "CodeFormer" ∈ env.fs →
      (moduleInit env).1 = [] ∧ (moduleInit env).2 = .ok ()) ∧
    (env.gfpganPresent = false →
      Event.subprocCheckCall (pipInstallCmd "gfpgan")
        (env.exitCode (pipInstallCmd "gfpgan")) ∈ (moduleInit env).1) ∧
    ((env.gfpganPresent = true ∨ env.exitCode (pipInstallCmd "gfpgan") = 0) →
     "CodeFormer" ∉ env.fs →
      Event.subprocCheckCall gitCloneCmd (env.exitCode gitCloneCmd) ∈
        (moduleInit env).1 ∧
      (env.exitCode gitCloneCmd = 0 →
        Event.subprocCheckCall pipReqsCmd (env.exitCode pipReqsCmd) ∈
          (moduleInit env).1)) := by
  refine ⟨?_, ?_, ?_⟩
  · intro h1 h2
    simp [moduleInit, gfpganBootstrap, codeFormerBootstrap, h1, h2]
  · intro h1
    by_cases hp : env.exitCode (pipInstallCmd "gfpgan") = 0 <;>
      simp [moduleInit, gfpganBootstrap, checkCall, h1, hp]
  · intro h1 h2
    have hbody : ∀ hgf : (gfpganBootstrap env).2 = .ok (),
        Event.subprocCheckCall gitCloneCmd (env.exitCode gitCloneCmd) ∈
          (moduleInit env).1 ∧
        (env.exitCode gitCloneCmd = 0 →
          Event.subprocCheckCall pipReqsCmd (env.exitCode pipReqsCmd) ∈
            (moduleInit env).1) := by
      intro hgf
      by_cases hc : env.exitCode gitCloneCmd = 0 <;>
        simp [moduleInit, hgf, codeFormerBootstrap, checkCall, h2, hc]
    rcases h1 with h1 | h1
    · exact hbody (by simp [gfpganBootstrap, h1])
    · by_cases hg : env.gfpganPresent = true
      · exact hbody (by simp [gfpganBootstrap, hg])
      · have hg' : env.gfpganPresent = false := by
          cases h : env.gfpganPresent
          · rfl
          · exact absurd h hg
        exact hbody (by simp [gfpganBootstrap, checkCall, hg', h1])

/-- Witness for C8: both present gives no shell-out; both missing (with
commands succeeding) gives the pip install, the clone and the
requirements install. -/
theorem bootstrap_installs_on_demand_witness :
    ((moduleInit envBootA).1 = [] ∧ (moduleInit envBootA).2 = .ok ()) ∧
    Event.subprocCheckCall (pipInstallCmd "gfpgan")
      (envBootB.exitCode (pipInstallCmd "gfpgan")) ∈ (moduleInit envBootB).1 ∧
    Event.subprocCheckCall gitCloneCmd (envBootB.exitCode gitCloneCmd) ∈
      (moduleInit envBootB).1 ∧
    Event.subprocCheckCall pipReqsCmd (envBootB.exitCode pipReqsCmd) ∈
      (moduleInit envBootB).1 := by
  have hA := bootstrap_installs_on_demand envBootA
  have hB := bootstrap_installs_on_demand envBootB
  have hcf : "CodeFormer" ∉ envBootB.fs := by simp [envBootB, envEx]
  refine ⟨hA.1 rfl (by simp [envBootA, envEx]), hB.2.1 rfl, ?_, ?_⟩
  · exact (hB.2.2 (Or.inr rfl) hcf).1
  · exact (hB.2.2 (Or.inr rfl) hcf).2 rfl

/-- A reachable failure of one of the dependency-bootstrap shell-outs:
the pip install of gfpgan, the git clone of CodeFormer, or the pip
install of its requirements. -/
def bootstrapFailure (env : Env) : Prop :=
  (env.gfpganPresent = false ∧ env.exitCode (pipInstallCmd "gfpgan") ≠ 0) ∨
  ((env.gfpganPresent = true ∨ env.exitCode (pipInstallCmd "gfpgan") = 0) ∧
   "CodeFormer" ∉ env.fs ∧
   (env.exitCode gitCloneCmd ≠ 0 ∨
    (env.exitCode gitCloneCmd = 0 ∧ env.exitCode pipReqsCmd ≠ 0)))

/-- C9: unlike the post-processing stages, a non-zero exit code of any
dependency-bootstrap shell-out raises `CalledProcessError` via
`check_call` and aborts the script before `main` runs: the script's
outcome is that error and its trace contains no event of `main`. -/
theorem bootstrap_failure_aborts_script (config : Config) (i : CLIInput)
    (env : Env) (h : bootstrapFailure env) :
    (∃ cmd, (script config i env).2 =
        .error (.calledProcessError cmd (env.exitCode cmd)) ∧
      env.exitCode cmd ≠ 0) ∧
    ∀ e ∈ (script config i env).1, isFromMain e = false := by
  rcases h with ⟨h1, h2⟩ | ⟨h1, h2, h3⟩
  · refine ⟨⟨pipInstallCmd "gfpgan", ?_, h2⟩, ?_⟩ <;>
      simp [script, moduleInit, gfpganBootstrap, checkCall, h1, h2, isFromMain]
  · have hgf : (gfpganBootstrap env).2 = .ok () ∧
        ∀ e ∈ (gfpganBootstrap env).1, isFromMain e = false := by
      rcases h1 with h1 | h1
      · simp [gfpganBootstrap, h1]
      · by_cases hg : env.gfpganPresent = true
        · simp [gfpganBootstrap, hg]
        · have hg' : env.gfpganPresent = false := by
            cases h : env.gfpganPresent
            · rfl
            · exact absurd h hg
          simp [gfpganBootstrap, checkCall, hg', h1, isFromMain]
    rcases h3 with h3 | ⟨h3, h4⟩
    · refine ⟨⟨gitCloneCmd, ?_, h3⟩, ?_⟩
      · simp [script, moduleInit, hgf.1, codeFormerBootstrap, checkCall, h2, h3]
      · intro e he
        simp [script, moduleInit, hgf.1, codeFormerBootstrap, checkCall,
          h2, h3] at he
        rcases he with he | rfl | rfl
        · exact hgf.2 e he
        · rfl
        · rfl
    · refine ⟨⟨pipReqsCmd, ?_, h4⟩, ?_⟩
      · simp [script, moduleInit, hgf.1, codeFormerBootstrap, checkCall, h2, h3, h4]
      · intro e he
        simp [script, moduleInit, hgf.1, codeFormerBootstrap, checkCall,
          h2, h3, h4] at he
        rcases he with he | rfl | rfl | rfl | rfl
        · exact hgf.2 e he
        · rfl
        · rfl
        · rfl
        · rfl

/-- Witness for C9: gfpgan missing and its pip install exiting 1 aborts
the script; the bootstrap print is not a `main` event. -/
theorem bootstrap_failure_aborts_script_witness :
    bootstrapFailure envBootFail ∧
    isFromMain (Event.print "GFPGAN not found. Installing...") = false := by
  have hf : bootstrapFailure envBootFail := Or.inl ⟨rfl, by decide⟩
  have h := bootstrap_failure_aborts_script cfg768 cliEx envBootFail hf
  exact ⟨hf, h.2 (Event.print "GFPGAN not found. Installing...") (by decide)⟩

end LatentSync
